import Mathlib

/-!
Shallow embedding of the NeckRange-AI landmark-geometry and diagnosis pipeline.

Coordinates are embedded as rationals (the TypeScript source manipulates decimal
literals such as 0.7, 0.3, 0.15 and 0.5, all exactly representable); the single
transcendental step (Math.atan) is applied at the very end of the shoulder-angle
computation and is modelled with Real.arctan, including the JavaScript behaviour
of atan at an infinite or NaN argument produced by division by zero.

Sources embedded:
  - src/src/utils/angleUtils.ts  (calculateShoulderAngle, calculateLateralFlexionAngle)
  - src/unnamed/part_008         (isOutlier, getMedianLandmark, stabilizeShoulders,
                                  estimateAcromion)
  - src/src/App.tsx and src/unnamed/part_006 (calculateDiagnosis)
  - src/unnamed/part_005         (Landmark, ImageType, FlexibilityLevel,
                                  AsymmetryLevel, DiagnosisResult shapes)
The classifier / recommendation module src/utils/validationUtils.ts is imported
by App.tsx but is not among the provided sources; its three functions are
modelled from the spec (sections 4.4 and 4.5) and are marked as such.
-/

/-- MediaPipe landmark: normalized coordinates plus an optional visibility,
mirroring the `Landmark` interface of src/unnamed/part_005. -/
structure Landmark where
  x : ℚ
  y : ℚ
  z : ℚ
  visibility : Option ℚ
deriving DecidableEq

/-- A detected pose is an array of landmarks; an entry may be absent
(JavaScript `undefined`), which the source checks with falsy tests. -/
def getLm (landmarks : List (Option Landmark)) (i : ℕ) : Option Landmark :=
  landmarks.getD i none

/-- Body side selector, standing for the string literals used in the source. -/
inductive Side where
  | left
  | right
deriving DecidableEq

/-- POSE_LANDMARKS ear index for a side (7 left, 8 right). -/
def earIndex : Side → ℕ
  | Side.left => 7
  | Side.right => 8

/-- POSE_LANDMARKS shoulder index for a side (11 left, 12 right). -/
def shoulderIndex : Side → ℕ
  | Side.left => 11
  | Side.right => 12

/-- POSE_LANDMARKS elbow index for a side (13 left, 14 right). -/
def elbowIndex : Side → ℕ
  | Side.left => 13
  | Side.right => 14

/-- JavaScript `Math.abs` on a rational, written with an `if` so that concrete
inputs evaluate by kernel reduction; equal to mathlib's `abs` (ratAbs_eq_abs). -/
def ratAbs (q : ℚ) : ℚ :=
  if q < 0 then -q else q

theorem ratAbs_eq_abs (q : ℚ) : ratAbs q = |q| := by
  rcases lt_or_le q 0 with h | h
  · rw [ratAbs, if_pos h, abs_of_neg h]
  · rw [ratAbs, if_neg (not_lt.mpr h), abs_of_nonneg h]

/-- JavaScript `Math.min` on two rationals, written with an `if` so that
concrete inputs evaluate by kernel reduction; equal to mathlib's `min`. -/
def ratMin (a b : ℚ) : ℚ :=
  if a ≤ b then a else b

theorem ratMin_eq_min (a b : ℚ) : ratMin a b = min a b := by
  rw [ratMin, min_def]

/-- JavaScript `v || 1` applied to an optional visibility: an absent value and
the (falsy) value 0 are both replaced by 1, as in `ear.visibility || 1` in
estimateAcromion (src/unnamed/part_008, line 181). -/
def jsOrOne (v : Option ℚ) : ℚ :=
  match v with
  | none => 1
  | some x => if x = 0 then 1 else x

/-- Embedding of `isOutlier` (src/unnamed/part_008, lines 9-21): low visibility
or out-of-frame coordinates. -/
def isOutlier (landmark : Landmark) : Bool :=
  if (match landmark.visibility with
      | some v => decide (v < 1/2)
      | none => false) then
    true
  else if landmark.x < 0 ∨ 1 < landmark.x ∨ landmark.y < 0 ∨ 1 < landmark.y then
    true
  else
    false

/-- Embedding of `stabilizeShoulders` (src/unnamed/part_008, lines 52-73):
each shoulder's y is pulled 30% toward the common average y; every other field
is kept by the object spread. -/
structure StabilizedShoulders where
  left : Landmark
  right : Landmark
deriving DecidableEq

def stabilizeShoulders (leftShoulder rightShoulder : Landmark) : StabilizedShoulders :=
  let avgY := (leftShoulder.y + rightShoulder.y) / 2
  let stabilizationFactor : ℚ := 3/10
  { left := { leftShoulder with
      y := leftShoulder.y * (1 - stabilizationFactor) + avgY * stabilizationFactor }
    right := { rightShoulder with
      y := rightShoulder.y * (1 - stabilizationFactor) + avgY * stabilizationFactor } }

/-- Embedding of `estimateAcromion` (src/unnamed/part_008, lines 132-183).
If ear, shoulder and elbow are all present: interpolate 70% from ear toward
shoulder, then shift x by 15% of the horizontal shoulder-to-elbow distance
(minus for the left side, plus for the right side, the code's outward
convention), take z from the shoulder and visibility as the min of the two
JS-defaulted visibilities. Otherwise fall back to the raw shoulder landmark,
or to the zero point (with no visibility) when that is absent too. -/
def estimateAcromion (landmarks : List (Option Landmark)) (side : Side) : Landmark :=
  let ear := getLm landmarks (earIndex side)
  let shoulder := getLm landmarks (shoulderIndex side)
  let elbow := getLm landmarks (elbowIndex side)
  match ear, shoulder, elbow with
  | some e, some s, some b =>
      let earToShoulderX := s.x - e.x
      let earToShoulderY := s.y - e.y
      let acromionOffsetRatio : ℚ := 7/10
      let acromionX := e.x + earToShoulderX * acromionOffsetRatio
      let acromionY := e.y + earToShoulderY * acromionOffsetRatio
      let shoulderToElbowX := b.x - s.x
      let lateralOffset := ratAbs shoulderToElbowX * (3/20)
      let finalX := if side = Side.left then acromionX - lateralOffset
                    else acromionX + lateralOffset
      { x := finalX
        y := acromionY
        z := s.z
        visibility := some (ratMin (jsOrOne e.visibility) (jsOrOne s.visibility)) }
  | _, _, _ =>
      (getLm landmarks (shoulderIndex side)).getD { x := 0, y := 0, z := 0, visibility := none }

/-- Embedding of `calculateLateralFlexionAngle` (src/src/utils/angleUtils.ts,
lines 131-138): absolute difference of tilt and neutral angles. -/
def calculateLateralFlexionAngle (neutralAngle tiltAngle : ℚ) : ℚ :=
  ratAbs (tiltAngle - neutralAngle)

/-- The rational core of `calculateShoulderAngle` (src/src/utils/angleUtils.ts,
lines 28-69): estimate both acromions, stabilize them, and return
(dx, dy) = (|left.x - right.x|, left.y - right.y) of the stabilized pair. -/
def shoulderDxDy (landmarks : List (Option Landmark)) : ℚ × ℚ :=
  let leftAcromion := estimateAcromion landmarks Side.left
  let rightAcromion := estimateAcromion landmarks Side.right
  let stabilized := stabilizeShoulders leftAcromion rightAcromion
  (ratAbs (stabilized.left.x - stabilized.right.x), stabilized.left.y - stabilized.right.y)

/-- A JavaScript number that is either an ordinary real or NaN. -/
inductive JsNumber where
  | num (val : ℝ)
  | nan

/-- JavaScript `Math.atan(dy / dx) * (180 / Math.PI)` with IEEE semantics of
the division: for dx = 0 the quotient is +Infinity, -Infinity or NaN according
to the sign of dy, and atan maps these to 90, -90 and NaN degrees. -/
noncomputable def jsAtanDeg (dy dx : ℚ) : JsNumber :=
  if dx = 0 then
    if 0 < dy then JsNumber.num 90
    else if dy < 0 then JsNumber.num (-90)
    else JsNumber.nan
  else
    JsNumber.num (Real.arctan ((dy : ℝ) / (dx : ℝ)) * (180 / Real.pi))

/-- Embedding of `calculateShoulderAngle` (src/src/utils/angleUtils.ts,
lines 28-69): the stabilized-acromion geometry followed by the JS atan step.
The function has no degenerate-geometry guard. -/
noncomputable def calculateShoulderAngle (landmarks : List (Option Landmark)) : JsNumber :=
  jsAtanDeg (shoulderDxDy landmarks).2 (shoulderDxDy landmarks).1

/-- The spec's shoulder-tilt formula (section 4.3), written from its words:
atan((left.y - right.y) / |left.x - right.x|) x 180/pi on the bilaterally
stabilized anchors. -/
noncomputable def specShoulderAngleFormula (landmarks : List (Option Landmark)) : ℝ :=
  let stabilized := stabilizeShoulders (estimateAcromion landmarks Side.left)
    (estimateAcromion landmarks Side.right)
  Real.arctan (((stabilized.left.y - stabilized.right.y : ℚ) : ℝ) /
      ((|stabilized.left.x - stabilized.right.x| : ℚ) : ℝ)) * (180 / Real.pi)

/-- Claim C8: calculateLateralFlexionAngle is the absolute difference, is
non-negative, and vanishes exactly when tilt equals neutral. -/
theorem lateralFlexion_abs_diff (neutralAngle tiltAngle : ℚ) :
    calculateLateralFlexionAngle neutralAngle tiltAngle = |tiltAngle - neutralAngle| ∧
      0 ≤ calculateLateralFlexionAngle neutralAngle tiltAngle ∧
      (calculateLateralFlexionAngle neutralAngle tiltAngle = 0 ↔ tiltAngle = neutralAngle) := by
  refine ⟨ratAbs_eq_abs _, ?_, ?_⟩
  · rw [calculateLateralFlexionAngle, ratAbs_eq_abs]
    exact abs_nonneg _
  · rw [calculateLateralFlexionAngle, ratAbs_eq_abs, abs_eq_zero, sub_eq_zero]

/-- Claim C9: stabilizeShoulders only moves the y coordinates (x, z and
visibility of both outputs coincide with the inputs) and it preserves the
average of the two y coordinates. -/
theorem stabilizeShoulders_frame (l r : Landmark) :
    (stabilizeShoulders l r).left.x = l.x ∧
      (stabilizeShoulders l r).left.z = l.z ∧
      (stabilizeShoulders l r).left.visibility = l.visibility ∧
      (stabilizeShoulders l r).right.x = r.x ∧
      (stabilizeShoulders l r).right.z = r.z ∧
      (stabilizeShoulders l r).right.visibility = r.visibility ∧
      ((stabilizeShoulders l r).left.y + (stabilizeShoulders l r).right.y) / 2
        = (l.y + r.y) / 2 := by
  refine ⟨rfl, rfl, rfl, rfl, rfl, rfl, ?_⟩
  show (l.y * (1 - 3/10) + (l.y + r.y) / 2 * (3/10)
      + (r.y * (1 - 3/10) + (l.y + r.y) / 2 * (3/10))) / 2 = (l.y + r.y) / 2
  ring

/-- Four-bucket flexibility level, mirroring the `FlexibilityLevel` enum of
src/unnamed/part_005 (lines 86-91). -/
inductive FlexibilityLevel where
  | STIFF
  | SOMEWHAT_STIFF
  | NORMAL
  | FLEXIBLE
deriving DecidableEq

/-- Four-bucket asymmetry level, mirroring the `AsymmetryLevel` enum of
src/unnamed/part_005 (lines 96-101). -/
inductive AsymmetryLevel where
  | NORMAL
  | MILD
  | MODERATE
  | SIGNIFICANT
deriving DecidableEq

/-- Modelled from the spec: `evaluateFlexibility` lives in
src/utils/validationUtils.ts, which is not among the provided source files
(only its callers in App.tsx and the enum it returns are). Thresholds follow
spec section 4.4: angle < 30 STIFF, 30 <= angle < 40 SOMEWHAT_STIFF,
40 <= angle <= 50 NORMAL, angle > 50 FLEXIBLE; they agree with the comments
on the FlexibilityLevel enum in src/unnamed/part_005. -/
def evaluateFlexibility (angle : ℚ) : FlexibilityLevel :=
  if angle < 30 then FlexibilityLevel.STIFF
  else if angle < 40 then FlexibilityLevel.SOMEWHAT_STIFF
  else if angle ≤ 50 then FlexibilityLevel.NORMAL
  else FlexibilityLevel.FLEXIBLE

/-- Modelled from the spec: `evaluateAsymmetry` lives in
src/utils/validationUtils.ts, which is not among the provided source files.
Per spec section 4.4 it classifies diff = |rightFlexion - leftFlexion|:
diff < 5 NORMAL, 5 <= diff < 10 MILD, 10 <= diff < 15 MODERATE,
diff >= 15 SIGNIFICANT (boundary values in the stricter bucket). -/
def evaluateAsymmetry (rightAngle leftAngle : ℚ) : AsymmetryLevel :=
  let diff := ratAbs (rightAngle - leftAngle)
  if diff < 5 then AsymmetryLevel.NORMAL
  else if diff < 10 then AsymmetryLevel.MILD
  else if diff < 15 then AsymmetryLevel.MODERATE
  else AsymmetryLevel.SIGNIFICANT

/-- Advisory messages produced by the recommendation engine, identified by
their rule of origin (spec section 4.5); side-naming messages carry the
stiffer side. -/
inductive RecMessage where
  | asymmetrySignificant (stifferSide : Side)
  | asymmetryModerate (stifferSide : Side)
  | generalMobilityRestriction
  | habitualStretching
  | deskPostureBreaks
  | maintainMobility
deriving DecidableEq

/-- Modelled from the spec: `generateRecommendations` lives in
src/utils/validationUtils.ts, which is not among the provided source files.
Rules follow spec section 4.5: (1) SIGNIFICANT asymmetry names the stiffer
side (smaller flexion angle) and recommends professional evaluation, (2) else
MODERATE asymmetry names the stiffer side, (3) a STIFF side yields the
general-mobility-restriction message, (4) else a SOMEWHAT_STIFF side yields
the habitual-stretching message, (5) neither side FLEXIBLE yields the
desk-posture message, (6) an otherwise empty list yields the single positive
message. -/
def generateRecommendations (rightFlexibility leftFlexibility : FlexibilityLevel)
    (asymmetry : AsymmetryLevel) (rightAngle leftAngle : ℚ) : List RecMessage :=
  let stifferSide : Side := if rightAngle < leftAngle then Side.right else Side.left
  let asymmetryMsgs : List RecMessage :=
    if asymmetry = AsymmetryLevel.SIGNIFICANT then [RecMessage.asymmetrySignificant stifferSide]
    else if asymmetry = AsymmetryLevel.MODERATE then [RecMessage.asymmetryModerate stifferSide]
    else []
  let stiffnessMsgs : List RecMessage :=
    if rightFlexibility = FlexibilityLevel.STIFF ∨ leftFlexibility = FlexibilityLevel.STIFF then
      [RecMessage.generalMobilityRestriction]
    else if rightFlexibility = FlexibilityLevel.SOMEWHAT_STIFF ∨
        leftFlexibility = FlexibilityLevel.SOMEWHAT_STIFF then
      [RecMessage.habitualStretching]
    else []
  let postureMsgs : List RecMessage :=
    if rightFlexibility ≠ FlexibilityLevel.FLEXIBLE ∧ leftFlexibility ≠ FlexibilityLevel.FLEXIBLE then
      [RecMessage.deskPostureBreaks]
    else []
  let acc := asymmetryMsgs ++ stiffnessMsgs ++ postureMsgs
  if acc = [] then [RecMessage.maintainMobility] else acc

/-- Capture type enum of src/unnamed/part_005 (lines 22-26). -/
inductive ImageType where
  | NEUTRAL
  | RIGHT_TILT
  | LEFT_TILT
deriving DecidableEq

/-- One analyzed capture as accumulated by App.tsx: landmarks and angles are
optional because analysis may not have completed. -/
structure CapturedImage where
  type : ImageType
  landmarks : Option (List (Option Landmark))
  angle : Option ℚ
  shoulderAngle : Option ℚ
deriving DecidableEq

/-- Diagnosis record of src/unnamed/part_005 (lines 68-81), restricted to the
computed fields (the image payloads only copy the inputs). -/
structure DiagnosisResult where
  neutralAngle : ℚ
  rightAngle : ℚ
  leftAngle : ℚ
  rightFlexibility : FlexibilityLevel
  leftFlexibility : FlexibilityLevel
  asymmetry : AsymmetryLevel
  asymmetryDiff : ℚ
  recommendations : List RecMessage
deriving DecidableEq

/-- Embedding of `calculateDiagnosis` (src/src/App.tsx lines 76-138 and
src/unnamed/part_006 lines 77-145). The guard
`if (!neutral?.angle || !right?.angle || !left?.angle || !neutral?.landmarks
|| ...)` sets an error and returns without a result; it fires when a capture
is missing, when its landmarks are absent, when its angle is absent, and also
when its angle equals 0 (JavaScript falsy zero). On the success path the two
lateral-flexion angles, the classifications, the asymmetry difference and the
recommendations are assembled into a DiagnosisResult. -/
def calculateDiagnosis (images : List CapturedImage) : Option DiagnosisResult :=
  let neutral := images.find? (fun img => decide (img.type = ImageType.NEUTRAL))
  let right := images.find? (fun img => decide (img.type = ImageType.RIGHT_TILT))
  let left := images.find? (fun img => decide (img.type = ImageType.LEFT_TILT))
  match neutral, right, left with
  | some n, some r, some l =>
      match n.angle, r.angle, l.angle, n.landmarks, r.landmarks, l.landmarks with
      | some na, some ra, some la, some _, some _, some _ =>
          if na = 0 ∨ ra = 0 ∨ la = 0 then
            none
          else
            let rightAngle := calculateLateralFlexionAngle na ra
            let leftAngle := calculateLateralFlexionAngle na la
            let rightFlexibility := evaluateFlexibility rightAngle
            let leftFlexibility := evaluateFlexibility leftAngle
            let asymmetry := evaluateAsymmetry rightAngle leftAngle
            let asymmetryDiff := ratAbs (rightAngle - leftAngle)
            some
              { neutralAngle := na
                rightAngle := rightAngle
                leftAngle := leftAngle
                rightFlexibility := rightFlexibility
                leftFlexibility := leftFlexibility
                asymmetry := asymmetry
                asymmetryDiff := asymmetryDiff
                recommendations := generateRecommendations rightFlexibility leftFlexibility
                  asymmetry rightAngle leftAngle }
      | _, _, _, _, _, _ => none
  | _, _, _ => none

/-- Claim C1: the flexibility classifier's buckets and its two boundary
values, for non-negative angles. -/
theorem evaluateFlexibility_buckets (a : ℚ) (ha : 0 ≤ a) :
    (a < 30 → evaluateFlexibility a = FlexibilityLevel.STIFF) ∧
      (30 ≤ a → a < 40 → evaluateFlexibility a = FlexibilityLevel.SOMEWHAT_STIFF) ∧
      (40 ≤ a → a ≤ 50 → evaluateFlexibility a = FlexibilityLevel.NORMAL) ∧
      (50 < a → evaluateFlexibility a = FlexibilityLevel.FLEXIBLE) ∧
      evaluateFlexibility 30 = FlexibilityLevel.SOMEWHAT_STIFF ∧
      evaluateFlexibility 50 = FlexibilityLevel.NORMAL := by
  refine ⟨?_, ?_, ?_, ?_, by decide, by decide⟩ <;>
    · intros
      unfold evaluateFlexibility
      split_ifs <;> first | rfl | linarith

/-- Witness for C1 at a = 35. -/
theorem evaluateFlexibility_buckets_witness :
    evaluateFlexibility 35 = FlexibilityLevel.SOMEWHAT_STIFF :=
  (evaluateFlexibility_buckets 35 (by decide)).2.1 (by decide) (by decide)

/-- Claim C2: the asymmetry classifier's buckets on d = |right - left| and its
three boundary values. -/
theorem evaluateAsymmetry_buckets (r l : ℚ) :
    (|r - l| < 5 → evaluateAsymmetry r l = AsymmetryLevel.NORMAL) ∧
      (5 ≤ |r - l| → |r - l| < 10 → evaluateAsymmetry r l = AsymmetryLevel.MILD) ∧
      (10 ≤ |r - l| → |r - l| < 15 → evaluateAsymmetry r l = AsymmetryLevel.MODERATE) ∧
      (15 ≤ |r - l| → evaluateAsymmetry r l = AsymmetryLevel.SIGNIFICANT) ∧
      evaluateAsymmetry 5 0 = AsymmetryLevel.MILD ∧
      evaluateAsymmetry 10 0 = AsymmetryLevel.MODERATE ∧
      evaluateAsymmetry 15 0 = AsymmetryLevel.SIGNIFICANT := by
  refine ⟨?_, ?_, ?_, ?_, by norm_num [evaluateAsymmetry, ratAbs],
    by norm_num [evaluateAsymmetry, ratAbs], by norm_num [evaluateAsymmetry, ratAbs]⟩ <;>
    · intros
      simp only [evaluateAsymmetry, ratAbs_eq_abs]
      split_ifs <;> first | rfl | linarith

/-- Witness for C2 at (r, l) = (7, 0). -/
theorem evaluateAsymmetry_buckets_witness :
    evaluateAsymmetry 7 0 = AsymmetryLevel.MILD :=
  (evaluateAsymmetry_buckets 7 0).2.1 (by norm_num) (by norm_num)

/-- Three complete captures whose recorded neck-tilt angles are all 0. -/
def allZeroCaptures : List CapturedImage :=
  [ { type := ImageType.NEUTRAL, landmarks := some [], angle := some 0, shoulderAngle := some 0 }
  , { type := ImageType.RIGHT_TILT, landmarks := some [], angle := some 0, shoulderAngle := some 0 }
  , { type := ImageType.LEFT_TILT, landmarks := some [], angle := some 0, shoulderAngle := some 0 } ]

/-- Claim C3 (failing input): with all three captures present and all three
recorded angles equal to 0.0, calculateDiagnosis produces no DiagnosisResult
at all — the completeness guard treats the falsy angle 0 as missing data and
returns early with an error — contradicting the spec's end-to-end scenario B. -/
theorem calculateDiagnosis_allZero_none :
    calculateDiagnosis allZeroCaptures = none := by decide

/-- Sign of the lateral acromion correction: minus for the left side, plus for
the right side, as in the `finalX` branch of estimateAcromion. -/
def sideSign : Side → ℚ
  | Side.left => -1
  | Side.right => 1

/-- Helper characterization: when ear, shoulder and elbow are all present,
estimateAcromion returns the 70% ear-to-shoulder interpolation with the signed
lateral x correction, the shoulder's z and the JS-defaulted minimum
visibility. -/
theorem estimateAcromion_present (landmarks : List (Option Landmark)) (side : Side)
    (e s b : Landmark)
    (he : getLm landmarks (earIndex side) = some e)
    (hs : getLm landmarks (shoulderIndex side) = some s)
    (hb : getLm landmarks (elbowIndex side) = some b) :
    estimateAcromion landmarks side =
      { x := e.x + (s.x - e.x) * (7/10) + sideSign side * (ratAbs (b.x - s.x) * (3/20))
        y := e.y + (s.y - e.y) * (7/10)
        z := s.z
        visibility := some (ratMin (jsOrOne e.visibility) (jsOrOne s.visibility)) } := by
  simp only [estimateAcromion, he, hs, hb]
  cases side <;> simp [sideSign] <;> ring

/-- Claim C6 (amended): full characterization of estimateAcromion. In the
all-present case the returned visibility is the minimum of the two
visibilities after the JS default `v || 1` (absent or zero visibility counts
as 1), not the plain minimum of the raw visibilities; if any of the three
keypoints is missing the function returns the raw shoulder keypoint, or the
zero point when the shoulder is missing too. -/
theorem estimateAcromion_spec (landmarks : List (Option Landmark)) (side : Side) :
    (∀ e s b : Landmark,
        getLm landmarks (earIndex side) = some e →
        getLm landmarks (shoulderIndex side) = some s →
        getLm landmarks (elbowIndex side) = some b →
        estimateAcromion landmarks side =
          { x := e.x + (s.x - e.x) * (7/10) + sideSign side * (|b.x - s.x| * (3/20))
            y := e.y + (s.y - e.y) * (7/10)
            z := s.z
            visibility := some (min (jsOrOne e.visibility) (jsOrOne s.visibility)) }) ∧
      (getLm landmarks (earIndex side) = none ∨ getLm landmarks (shoulderIndex side) = none ∨
          getLm landmarks (elbowIndex side) = none →
        estimateAcromion landmarks side =
          (getLm landmarks (shoulderIndex side)).getD
            { x := 0, y := 0, z := 0, visibility := none }) := by
  constructor
  · intro e s b he hs hb
    rw [estimateAcromion_present landmarks side e s b he hs hb, ratAbs_eq_abs, ratMin_eq_min]
  · intro h
    cases hE : getLm landmarks (earIndex side) with
    | none => simp only [estimateAcromion, hE]
    | some e =>
      cases hS : getLm landmarks (shoulderIndex side) with
      | none => simp only [estimateAcromion, hE, hS]
      | some s =>
        cases hB : getLm landmarks (elbowIndex side) with
        | none => simp only [estimateAcromion, hE, hS, hB]
        | some b => simp_all

/-- Witness for the amended C6 at a fully present left-side triple. -/
def earW6 : Landmark := { x := 2/5, y := 1/5, z := 0, visibility := some (9/10) }

def shoulderW6 : Landmark := { x := 3/10, y := 3/5, z := 1/10, visibility := some (3/5) }

def elbowW6 : Landmark := { x := 1/4, y := 4/5, z := 0, visibility := some 1 }

def exLm6w : List (Option Landmark) :=
  [none, none, none, none, none, none, none, some earW6, none, none, none,
    some shoulderW6, none, some elbowW6]

theorem estimateAcromion_spec_witness :
    estimateAcromion exLm6w Side.left =
      { x := earW6.x + (shoulderW6.x - earW6.x) * (7/10) +
          sideSign Side.left * (|elbowW6.x - shoulderW6.x| * (3/20))
        y := earW6.y + (shoulderW6.y - earW6.y) * (7/10)
        z := shoulderW6.z
        visibility := some (min (jsOrOne earW6.visibility) (jsOrOne shoulderW6.visibility)) } :=
  (estimateAcromion_spec exLm6w Side.left).1 earW6 shoulderW6 elbowW6 rfl rfl rfl

/-- A left-side triple whose ear has visibility 0: the code returns
min(0 or 1, 4/5 or 1) = 4/5, not min(0, 4/5) = 0. -/
def earC6 : Landmark := { x := 1/2, y := 1/5, z := 0, visibility := some 0 }

def shoulderC6 : Landmark := { x := 1/2, y := 3/5, z := 0, visibility := some (4/5) }

def elbowC6 : Landmark := { x := 1/2, y := 7/10, z := 0, visibility := some 1 }

def exLm6 : List (Option Landmark) :=
  [none, none, none, none, none, none, none, some earC6, none, none, none,
    some shoulderC6, none, some elbowC6]

/-- Counterexample to C6 as stated: with ear visibility 0 and shoulder
visibility 4/5 the returned visibility is 4/5, while the claim's value
min(ear.visibility, shoulder.visibility) is 0. -/
theorem estimateAcromion_visibility_counterexample :
    (estimateAcromion exLm6 Side.left).visibility = some (4/5) ∧
      min ((0:ℚ)) (4/5) ≠ (4/5 : ℚ) := by
  constructor
  · rw [estimateAcromion_present exLm6 Side.left earC6 shoulderC6 elbowC6 rfl rfl rfl]
    norm_num [earC6, shoulderC6, jsOrOne, ratMin]
  · norm_num [min_def]

/-- Dot product on the image plane. -/
def dot2 (u v : ℚ × ℚ) : ℚ :=
  u.1 * v.1 + u.2 * v.2

/-- The (x, y) position of a landmark. -/
def pt2 (l : Landmark) : ℚ × ℚ :=
  (l.x, l.y)

/-- Parameter of the orthogonal projection of p onto the line through a and b:
the projected point is a + t (b - a). -/
def projParam (p a b : ℚ × ℚ) : ℚ :=
  dot2 (p.1 - a.1, p.2 - a.2) (b.1 - a.1, b.2 - a.2) /
    dot2 (b.1 - a.1, b.2 - a.2) (b.1 - a.1, b.2 - a.2)

/-- The projection of p onto the segment from a to b lies strictly between the
endpoints. -/
def strictlyBetweenProj (p a b : ℚ × ℚ) : Prop :=
  0 < projParam p a b ∧ projParam p a b < 1

/-- A right-side triple (all coordinates inside [0,1], all keypoints present)
with a short ear-to-shoulder segment and a long arm: the lateral correction
pushes the acromion far past the shoulder endpoint. -/
def earC7 : Landmark := { x := 1/2, y := 1/2, z := 0, visibility := some 1 }

def shoulderC7 : Landmark := { x := 13/25, y := 1/2, z := 0, visibility := some 1 }

def elbowC7 : Landmark := { x := 23/25, y := 3/5, z := 0, visibility := some 1 }

def exLm7 : List (Option Landmark) :=
  [none, none, none, none, none, none, none, none, some earC7, none, none, none,
    some shoulderC7, none, some elbowC7]

/-- Counterexample to C7 as stated: for this present (ear, shoulder, elbow)
triple the projection parameter of the estimated acromion on the ear-shoulder
segment is 3.7, far beyond the shoulder endpoint. -/
theorem acromion_projection_counterexample :
    ¬ strictlyBetweenProj (pt2 (estimateAcromion exLm7 Side.right)) (pt2 earC7) (pt2 shoulderC7) := by
  rw [estimateAcromion_present exLm7 Side.right earC7 shoulderC7 elbowC7 rfl rfl rfl]
  norm_num [strictlyBetweenProj, projParam, dot2, pt2, earC7, shoulderC7, elbowC7,
    sideSign, ratAbs]

/-- Claim C7 (amended): for a present (ear, shoulder, elbow) triple with
distinct ear and shoulder image positions, the projection of the estimated
acromion onto the ear-shoulder segment lies strictly between the endpoints
exactly when the signed lateral correction, projected on the segment
direction, stays between -70% and +30% of the squared segment length; the
counterexample shows the bound can genuinely fail. -/
theorem acromion_projection_characterization (landmarks : List (Option Landmark)) (side : Side)
    (e s b : Landmark)
    (he : getLm landmarks (earIndex side) = some e)
    (hs : getLm landmarks (shoulderIndex side) = some s)
    (hb : getLm landmarks (elbowIndex side) = some b)
    (hd : (s.x - e.x) ^ 2 + (s.y - e.y) ^ 2 ≠ 0) :
    strictlyBetweenProj (pt2 (estimateAcromion landmarks side)) (pt2 e) (pt2 s) ↔
      (-(7/10) * ((s.x - e.x) ^ 2 + (s.y - e.y) ^ 2) <
          sideSign side * (|b.x - s.x| * (3/20)) * (s.x - e.x) ∧
        sideSign side * (|b.x - s.x| * (3/20)) * (s.x - e.x) <
          (3/10) * ((s.x - e.x) ^ 2 + (s.y - e.y) ^ 2)) := by
  have hd2 : 0 < (s.x - e.x) ^ 2 + (s.y - e.y) ^ 2 :=
    lt_of_le_of_ne (by positivity) (Ne.symm hd)
  rw [estimateAcromion_present landmarks side e s b he hs hb]
  have key : projParam
      (pt2 { x := e.x + (s.x - e.x) * (7/10) + sideSign side * (ratAbs (b.x - s.x) * (3/20))
             y := e.y + (s.y - e.y) * (7/10)
             z := s.z
             visibility := some (ratMin (jsOrOne e.visibility) (jsOrOne s.visibility)) })
      (pt2 e) (pt2 s)
      = ((7/10) * ((s.x - e.x) ^ 2 + (s.y - e.y) ^ 2) +
          sideSign side * (|b.x - s.x| * (3/20)) * (s.x - e.x)) /
        ((s.x - e.x) ^ 2 + (s.y - e.y) ^ 2) := by
    unfold projParam dot2 pt2
    rw [ratAbs_eq_abs]
    have hden : (s.x - e.x) * (s.x - e.x) + (s.y - e.y) * (s.y - e.y)
        = (s.x - e.x) ^ 2 + (s.y - e.y) ^ 2 := by ring
    rw [hden]
    congr 1
    ring
  rw [strictlyBetweenProj, key, div_lt_one hd2, lt_div_iff hd2, zero_mul]
  constructor
  · rintro ⟨h1, h2⟩
    exact ⟨by linarith, by linarith⟩
  · rintro ⟨h1, h2⟩
    exact ⟨by linarith, by linarith⟩

/-- A well-proportioned right-side triple for the C7 witness. -/
def earW7 : Landmark := { x := 1/2, y := 1/5, z := 0, visibility := some 1 }

def shoulderW7 : Landmark := { x := 3/5, y := 3/5, z := 0, visibility := some 1 }

def elbowW7 : Landmark := { x := 7/10, y := 3/5, z := 0, visibility := some 1 }

def exLm7w : List (Option Landmark) :=
  [none, none, none, none, none, none, none, none, some earW7, none, none, none,
    some shoulderW7, none, some elbowW7]

theorem acromion_projection_witness :
    strictlyBetweenProj (pt2 (estimateAcromion exLm7w Side.right)) (pt2 earW7) (pt2 shoulderW7) :=
  (acromion_projection_characterization exLm7w Side.right earW7 shoulderW7 elbowW7 rfl rfl rfl
      (by norm_num [earW7, shoulderW7])).mpr
    (by norm_num [sideSign, earW7, shoulderW7, elbowW7, abs_of_nonneg])

/-- A full landmark set whose two estimated acromions share the same x
coordinate (both arms hang straight so the lateral corrections vanish),
while their y coordinates differ. -/
def earL4 : Landmark := { x := 1/2, y := 1/5, z := 0, visibility := some 1 }

def earR4 : Landmark := { x := 1/2, y := 3/10, z := 0, visibility := some 1 }

def shoulderL4 : Landmark := { x := 1/2, y := 3/5, z := 0, visibility := some 1 }

def shoulderR4 : Landmark := { x := 1/2, y := 4/5, z := 0, visibility := some 1 }

def elbowL4 : Landmark := { x := 1/2, y := 9/10, z := 0, visibility := some 1 }

def elbowR4 : Landmark := { x := 1/2, y := 19/20, z := 0, visibility := some 1 }

def exLm4 : List (Option Landmark) :=
  [none, none, none, none, none, none, none, some earL4, some earR4, none, none,
    some shoulderL4, some shoulderR4, some elbowL4, some elbowR4]

theorem exLm4_dxdy : shoulderDxDy exLm4 = (0, -(119/1000)) := by
  have hL : estimateAcromion exLm4 Side.left = { x := 1/2, y := 12/25, z := 0, visibility := some 1 } := by
    rw [estimateAcromion_present exLm4 Side.left earL4 shoulderL4 elbowL4 rfl rfl rfl]
    norm_num [earL4, shoulderL4, elbowL4, sideSign, ratAbs, ratMin, jsOrOne]
  have hR : estimateAcromion exLm4 Side.right = { x := 1/2, y := 13/20, z := 0, visibility := some 1 } := by
    rw [estimateAcromion_present exLm4 Side.right earR4 shoulderR4 elbowR4 rfl rfl rfl]
    norm_num [earR4, shoulderR4, elbowR4, sideSign, ratAbs, ratMin, jsOrOne]
  rw [shoulderDxDy, hL, hR]
  norm_num [stabilizeShoulders, ratAbs]

/-- Counterexample to C4 as stated: on this landmark set the stabilized
anchors are vertically aligned (dx = 0), yet calculateShoulderAngle signals
nothing and returns the numeric angle -90 degrees. -/
theorem calculateShoulderAngle_degenerate_counterexample :
    calculateShoulderAngle exLm4 = JsNumber.num (-90) := by
  rw [calculateShoulderAngle, exLm4_dxdy]
  norm_num [jsAtanDeg]

/-- Claim C4 (amended): when the stabilized anchors have equal x coordinates,
calculateShoulderAngle does not fail: it returns +90 degrees when the
stabilized left anchor sits below the right one in image coordinates
(dy > 0), -90 degrees when dy < 0, and NaN when dy = 0, mirroring JavaScript
atan of the division by zero. -/
theorem calculateShoulderAngle_degenerate (landmarks : List (Option Landmark))
    (h : (shoulderDxDy landmarks).1 = 0) :
    calculateShoulderAngle landmarks =
      (if 0 < (shoulderDxDy landmarks).2 then JsNumber.num 90
       else if (shoulderDxDy landmarks).2 < 0 then JsNumber.num (-90)
       else JsNumber.nan) := by
  rw [calculateShoulderAngle, jsAtanDeg, if_pos h]

theorem calculateShoulderAngle_degenerate_witness :
    calculateShoulderAngle exLm4 =
      (if 0 < (shoulderDxDy exLm4).2 then JsNumber.num 90
       else if (shoulderDxDy exLm4).2 < 0 then JsNumber.num (-90)
       else JsNumber.nan) :=
  calculateShoulderAngle_degenerate exLm4 (by rw [exLm4_dxdy])

/-- Claim C5: away from the degenerate case, calculateShoulderAngle is
exactly the spec formula atan((left.y - right.y) / |left.x - right.x|) x
180/pi on the stabilized anchors, and with equal stabilized y coordinates
(and dx > 0) the returned angle is exactly 0. -/
theorem calculateShoulderAngle_formula (landmarks : List (Option Landmark)) :
    ((shoulderDxDy landmarks).1 ≠ 0 →
        calculateShoulderAngle landmarks = JsNumber.num (specShoulderAngleFormula landmarks)) ∧
      ((stabilizeShoulders (estimateAcromion landmarks Side.left)
            (estimateAcromion landmarks Side.right)).left.y =
          (stabilizeShoulders (estimateAcromion landmarks Side.left)
            (estimateAcromion landmarks Side.right)).right.y →
        (shoulderDxDy landmarks).1 ≠ 0 →
        calculateShoulderAngle landmarks = JsNumber.num 0) := by
  have hdx : (shoulderDxDy landmarks).1
      = ratAbs ((stabilizeShoulders (estimateAcromion landmarks Side.left)
          (estimateAcromion landmarks Side.right)).left.x -
        (stabilizeShoulders (estimateAcromion landmarks Side.left)
          (estimateAcromion landmarks Side.right)).right.x) := rfl
  have hdy : (shoulderDxDy landmarks).2
      = (stabilizeShoulders (estimateAcromion landmarks Side.left)
          (estimateAcromion landmarks Side.right)).left.y -
        (stabilizeShoulders (estimateAcromion landmarks Side.left)
          (estimateAcromion landmarks Side.right)).right.y := rfl
  constructor
  · intro h
    rw [calculateShoulderAngle, jsAtanDeg, if_neg h, specShoulderAngleFormula]
    rw [hdx, hdy, ratAbs_eq_abs]
  · intro hy h
    rw [calculateShoulderAngle, jsAtanDeg, if_neg h, hdy, sub_eq_zero.mpr hy]
    norm_num [Real.arctan_zero]

/-- A symmetric landmark set: the two stabilized anchors share the same y
and are separated by dx = 17/50 > 0. -/
def earL5 : Landmark := { x := 2/5, y := 1/5, z := 0, visibility := some 1 }

def earR5 : Landmark := { x := 3/5, y := 1/5, z := 0, visibility := some 1 }

def shoulderL5 : Landmark := { x := 3/10, y := 3/5, z := 0, visibility := some 1 }

def shoulderR5 : Landmark := { x := 7/10, y := 3/5, z := 0, visibility := some 1 }

def elbowL5 : Landmark := { x := 3/10, y := 9/10, z := 0, visibility := some 1 }

def elbowR5 : Landmark := { x := 7/10, y := 9/10, z := 0, visibility := some 1 }

def exLm5 : List (Option Landmark) :=
  [none, none, none, none, none, none, none, some earL5, some earR5, none, none,
    some shoulderL5, some shoulderR5, some elbowL5, some elbowR5]

theorem exLm5_acromionL :
    estimateAcromion exLm5 Side.left = { x := 33/100, y := 12/25, z := 0, visibility := some 1 } := by
  rw [estimateAcromion_present exLm5 Side.left earL5 shoulderL5 elbowL5 rfl rfl rfl]
  norm_num [earL5, shoulderL5, elbowL5, sideSign, ratAbs, ratMin, jsOrOne]

theorem exLm5_acromionR :
    estimateAcromion exLm5 Side.right = { x := 67/100, y := 12/25, z := 0, visibility := some 1 } := by
  rw [estimateAcromion_present exLm5 Side.right earR5 shoulderR5 elbowR5 rfl rfl rfl]
  norm_num [earR5, shoulderR5, elbowR5, sideSign, ratAbs, ratMin, jsOrOne]

theorem exLm5_dx : (shoulderDxDy exLm5).1 = 17/50 := by
  rw [shoulderDxDy, exLm5_acromionL, exLm5_acromionR]
  norm_num [stabilizeShoulders, ratAbs]

theorem calculateShoulderAngle_formula_witness :
    calculateShoulderAngle exLm5 = JsNumber.num 0 :=
  (calculateShoulderAngle_formula exLm5).2
    (by rw [exLm5_acromionL, exLm5_acromionR]; norm_num [stabilizeShoulders])
    (by rw [exLm5_dx]; norm_num)

/-- Ascending sort of rational values, standing for the JavaScript
`.sort((a, b) => a - b)` used by getMedianLandmark. -/
def sortQ (l : List ℚ) : List ℚ :=
  List.insertionSort (· ≤ ·) l

/-- Placeholder landmark used only to give list indexing a total type; every
theorem about getMedianLandmark assumes indices in range, where this default
is never reached (the TypeScript code would throw there). -/
def dfltLandmark : Landmark :=
  { x := 0, y := 0, z := 0, visibility := none }

/-- Embedding of `getMedianLandmark` (src/unnamed/part_008, lines 30-43):
sort each axis over all sample sets, take the middle element (odd count) or
the mean of the two middle elements (even count), and copy the visibility of
the first set's keypoint. No sample is excluded. -/
def getMedianLandmark (landmarkSets : List (List Landmark)) (index : ℕ) : Landmark :=
  let xValues := sortQ (landmarkSets.map (fun set => (set.getD index dfltLandmark).x))
  let yValues := sortQ (landmarkSets.map (fun set => (set.getD index dfltLandmark).y))
  let zValues := sortQ (landmarkSets.map (fun set => (set.getD index dfltLandmark).z))
  let mid := landmarkSets.length / 2
  { x := if landmarkSets.length % 2 = 0 then (xValues.getD (mid - 1) 0 + xValues.getD mid 0) / 2
         else xValues.getD mid 0
    y := if landmarkSets.length % 2 = 0 then (yValues.getD (mid - 1) 0 + yValues.getD mid 0) / 2
         else yValues.getD mid 0
    z := if landmarkSets.length % 2 = 0 then (zValues.getD (mid - 1) 0 + zValues.getD mid 0) / 2
         else zValues.getD mid 0
    visibility := ((landmarkSets.getD 0 []).getD index dfltLandmark).visibility }

/-- The claim's median of a full list of values, written from the spec's
words: sort all N values ascending and take the middle one, or the mean of
the two middle ones when N is even; no value is excluded, outlier or not. -/
def medianOfAll (values : List ℚ) : ℚ :=
  let sorted := sortQ values
  if values.length % 2 = 0 then
    (sorted.getD (values.length / 2 - 1) 0 + sorted.getD (values.length / 2) 0) / 2
  else
    sorted.getD (values.length / 2) 0

/-- The claim's description of the aggregated landmark: per-axis median over
all N samples and visibility copied from the first set. -/
def specMedianLandmark (landmarkSets : List (List Landmark)) (index : ℕ) : Landmark :=
  { x := medianOfAll (landmarkSets.map fun set => (set.getD index dfltLandmark).x)
    y := medianOfAll (landmarkSets.map fun set => (set.getD index dfltLandmark).y)
    z := medianOfAll (landmarkSets.map fun set => (set.getD index dfltLandmark).z)
    visibility := ((landmarkSets.getD 0 []).getD index dfltLandmark).visibility }

/-- Claim C10: on a non-empty family of landmark sets with the index in range
everywhere, getMedianLandmark is exactly the claim's per-axis median over all
N samples — outlier keypoints (isOutlier) are not excluded — with the first
set's visibility, and with the even-N case averaging the two middle sorted
values. -/
theorem getMedianLandmark_is_full_median (landmarkSets : List (List Landmark)) (index : ℕ)
    (hne : landmarkSets ≠ []) (hlen : ∀ set ∈ landmarkSets, index < set.length) :
    getMedianLandmark landmarkSets index = specMedianLandmark landmarkSets index := by
  simp only [getMedianLandmark, specMedianLandmark, medianOfAll, List.length_map]

/-- Witness for C10: two samples (even N), the second of which is an outlier
keypoint (visibility 0 < 0.5), which still contributes to the median. -/
def exSets10 : List (List Landmark) :=
  [[{ x := 0, y := 0, z := 0, visibility := some 1 }],
   [{ x := 1, y := 1, z := 0, visibility := some 0 }]]

theorem getMedianLandmark_witness :
    getMedianLandmark exSets10 0 = specMedianLandmark exSets10 0 :=
  getMedianLandmark_is_full_median exSets10 0 (by decide) (by decide)
